import Mathlib

/-!
# Verification of the event-gateway dispatch engine

Shallow embedding of `cmd/event-gateway/main.go` and of the core components
it wires together (target cache, router, plugin pipeline, shutdown guard).
The `logger` function and the control flow of `main` are translated directly
from the Go source.  The router, cache and plugin packages are not part of
the available source tree; their behaviour is modelled from the
specification, as marked in the individual doc comments.
-/

namespace EventGateway

/-! ## Logger configuration (`logger` in main.go) -/

/-- Which zap encoder configuration has been attached to the config:
none yet, the production one, or the development one. -/
inductive EncoderConfigKind
  | unset
  | production
  | development
deriving DecidableEq, Repr

/-- Embedding of the fields of `zap.Config` that `logger` in main.go touches.
`level` stands for the `zapcore.Level` value, `hasSampling` for whether
`cfg.Sampling` is non-nil. -/
structure ZapConfig where
  level : Int
  development : Bool
  hasSampling : Bool
  encoding : String
  encoderConfig : EncoderConfigKind
  outputPaths : List String
  errorOutputPaths : List String
  disableCaller : Bool
  disableStacktrace : Bool
deriving DecidableEq, Repr

/-- main.go: `const consoleEncoding = "console"`. -/
def consoleEncoding : String := "console"

/-- main.go: `const jsonEncoding = "json"`. -/
def jsonEncoding : String := "json"

/-- Embedding of `logger(dev bool, level zapcore.Level, format string) zap.Config`
from main.go, line by line: a base json config, the development override,
the format override (with an empty encoding on an unrecognised format),
and the encoder-config selection. -/
def logger (dev : Bool) (level : Int) (format : String) : ZapConfig :=
  let cfg : ZapConfig :=
    { level := level
      development := false
      hasSampling := true
      encoding := jsonEncoding
      encoderConfig := EncoderConfigKind.unset
      outputPaths := ["stderr"]
      errorOutputPaths := ["stderr"]
      disableCaller := false
      disableStacktrace := false }
  let cfg := if dev then { cfg with hasSampling := false, encoding := consoleEncoding } else cfg
  let cfg :=
    if format ≠ "" then
      if format = "text" then { cfg with encoding := consoleEncoding }
      else if format = jsonEncoding then { cfg with encoding := jsonEncoding }
      else { cfg with encoding := "" }
    else cfg
  let cfg :=
    if cfg.encoding = jsonEncoding then
      { cfg with encoderConfig := EncoderConfigKind.production }
    else cfg
  let cfg :=
    if cfg.encoding = consoleEncoding then
      { cfg with encoderConfig := EncoderConfigKind.development }
    else cfg
  { cfg with disableCaller := true, disableStacktrace := true }

/-- Modelled from the spec: the logging sink is an external capability (§1, §6).
zap's `Config.Build` succeeds only when the configured encoding is one of the
registered encoders, which for this program are `"console"` and `"json"`;
main.go panics when `Build` returns an error. -/
def zapBuildOk (cfg : ZapConfig) : Bool :=
  cfg.encoding == consoleEncoding || cfg.encoding == jsonEncoding

/-! ## The `main` control path as an event trace -/

/-- The observable steps of `main` in main.go, in the order the code can
perform them.  `storeClientClosed` is in the vocabulary so that its absence
from every trace is expressible: main.go never closes the KV store client. -/
inductive MainEvent
  | panicEv
  | fatalExit
  | newShutdownGuard
  | kvCreated
  | pluginsConnected
  | cacheCreated
  | startWorkers
  | startEventsAPI
  | startConfigAPI
  | waitReturned
  | drainCalled
  | pluginsKilled
  | storeClientClosed
  | exitEv
deriving DecidableEq, Repr

/-- The inputs that decide which path `main` takes: the logger flags, and
whether each fallible startup step fails.  `cacheErr` stands for a failure
of the target cache's initial full load (modelled from the spec: the cache
package is not in the source tree; spec §4.1 says a failed initial load is
fatal). -/
structure StartupEnv where
  dev : Bool
  level : Int
  format : String
  kvErr : Bool
  pluginErr : Bool
  cacheErr : Bool

/-- Embedding of the control flow of `main` (main.go lines 61-131) as the
trace of observable events it produces.  Translated from the source:
build the logger (panic on error), create the shutdown guard, create the KV
client (`log.Fatal` on error), connect plugins (`log.Fatal` on error),
build the target cache (fatal on a failed initial load, modelled from the
spec since the cache package is not in the source tree), start the router
workers, start the events API, start the config API, block in
`shutdownGuard.Wait()`, call `router.Drain()`, kill the plugin manager,
and return.  `log.Fatal` exits the process, so each error arm ends the
trace. -/
def mainTrace (env : StartupEnv) : List MainEvent :=
  if zapBuildOk (logger env.dev env.level env.format) = false then
    [MainEvent.panicEv]
  else
    MainEvent.newShutdownGuard ::
      (if env.kvErr then [MainEvent.fatalExit]
       else MainEvent.kvCreated ::
         (if env.pluginErr then [MainEvent.fatalExit]
          else MainEvent.pluginsConnected ::
            (if env.cacheErr then [MainEvent.fatalExit]
             else [MainEvent.cacheCreated, MainEvent.startWorkers,
                   MainEvent.startEventsAPI, MainEvent.startConfigAPI,
                   MainEvent.waitReturned, MainEvent.drainCalled,
                   MainEvent.pluginsKilled, MainEvent.exitEv])))

/-! ## Events, subscriptions and the target cache -/

/-- Modelled from the spec (§3): an inbound event — event type plus the HTTP
path and method it arrived on, and an opaque payload.  The router, cache and
event packages are not in the available source tree. -/
structure Event where
  eventType : String
  path : String
  httpMethod : String
  payload : String
deriving DecidableEq, Repr

/-- Modelled from the spec (§3): a subscription's delivery mode, `sync`
(caller blocks for the response) or `async` (fire-and-forget). -/
inductive DeliveryMode
  | syncMode
  | asyncMode
deriving DecidableEq, Repr

/-- Modelled from the spec (§3): a subscription binds a matcher
(event type, path, method) to one target function, with a delivery mode. -/
structure Subscription where
  sid : String
  eventType : String
  path : String
  httpMethod : String
  mode : DeliveryMode
  target : String
deriving DecidableEq, Repr

/-- Modelled from the spec (§3): an immutable-per-version target cache
snapshot — the registered functions (identifier paired with an invocation
descriptor) and the registered subscriptions. -/
structure Snapshot where
  functions : List (String × String)
  subscriptions : List Subscription
deriving DecidableEq, Repr

/-- A snapshot has no dangling subscription: every subscription's target
function identifier is present among the snapshot's functions. -/
def noDangling (s : Snapshot) : Bool :=
  s.subscriptions.all (fun sub => s.functions.any (fun f => f.fst == sub.target))

/-- Modelled from the spec (§4.1): `MatchSubscriptions` returns all
subscriptions whose matcher (event type, path, method) is satisfied, in
registration order. -/
def matchSubscriptions (subs : List Subscription)
    (eventType path httpMethod : String) : List Subscription :=
  subs.filter (fun s =>
    s.eventType == eventType && s.path == path && s.httpMethod == httpMethod)

/-! ## Atomic snapshot replacement

Modelled from the spec (§3, §5, §9): the cache snapshot lives behind an
atomically-swapped reference; the watch task is the sole mutator.  An
interleaved execution is a sequence of atomic steps, each either a swap by
the watch task (installing a wholly-new version) or a read by some
concurrent reader (taking the current reference in one step). -/

/-- One atomic step of the cache system: the watch task swaps in a new
complete snapshot version, or a reader takes the current snapshot. -/
inductive CacheOp
  | swapOp (s : Snapshot)
  | readOp
deriving DecidableEq, Repr

/-- Runs an interleaving of swap and read steps starting from the snapshot
`cur`, returning the list of snapshots the readers observed, in order. -/
def runReads : Snapshot → List CacheOp → List Snapshot
  | _, [] => []
  | _, CacheOp.swapOp s :: rest => runReads s rest
  | cur, CacheOp.readOp :: rest => cur :: runReads cur rest

/-- The complete versions that the interleaving ever swaps in. -/
def swappedVersions : List CacheOp → List Snapshot
  | [] => []
  | CacheOp.swapOp s :: rest => s :: swappedVersions rest
  | CacheOp.readOp :: rest => swappedVersions rest

/-! ## Plugin pipeline -/

/-- Modelled from the spec (§4.3): a hook returns *continue* (possibly with a
modified event), *reject* (abort with a caller-supplied reason), or *error*
(plugin malfunction). -/
inductive HookResult
  | proceed (e : Event)
  | reject (reason : String)
  | hookError
deriving Repr

/-- A plugin hook at one hook point: it receives the event and returns a
`HookResult`. -/
def Hook : Type := Event → HookResult

/-- Modelled from the spec (§4.3): the hooks of a phase run in registration
order; the first reject or error short-circuits the remaining hooks; an
error is treated as a reject with a generic reason. -/
def runHooks : List Hook → Event → Except String Event
  | [], e => Except.ok e
  | h :: rest, e =>
    match h e with
    | HookResult.proceed e2 => runHooks rest e2
    | HookResult.reject reason => Except.error reason
    | HookResult.hookError => Except.error "plugin error"

/-! ## Router -/

/-- Modelled from the spec (§3): a dispatch job — one async delivery attempt:
event payload, matched subscription, enqueue timestamp. -/
structure Job where
  event : Event
  sub : Subscription
  enqueuedAt : Nat
deriving DecidableEq, Repr

/-- Modelled from the spec (§4.2, §9): the router's async machinery — a
bounded job queue of fixed capacity feeding the worker pool, the
dropped-event counter, and whether the queue has been closed to new jobs
by `Drain()`. -/
structure RouterState where
  capacity : Nat
  queue : List Job
  dropped : Nat
  closed : Bool
deriving DecidableEq, Repr

/-- The acknowledgment the original publisher receives. -/
inductive Ack
  | success
deriving DecidableEq, Repr

/-- Errors a sync dispatch can report to its caller. -/
inductive DispatchError
  | notFound
  | pluginRejected (reason : String)
deriving DecidableEq, Repr

/-- Modelled from the spec (§4.2 step 4, §9): the non-blocking try-enqueue of
one dispatch job.  If the queue has room the job is appended; if the queue
is full the job is dropped immediately and the dropped-event counter is
incremented; either way the publisher's acknowledgment is success. -/
def dispatchAsyncOne (st : RouterState) (j : Job) : RouterState × Ack :=
  if st.queue.length < st.capacity then
    ({ st with queue := st.queue ++ [j] }, Ack.success)
  else
    ({ st with dropped := st.dropped + 1 }, Ack.success)

/-- Modelled from the spec (§4.2): async dispatch of an event — for each
matched subscription, construct a dispatch job and try to enqueue it; the
response to the publisher is success regardless (zero matches is a silent
no-op). -/
def dispatchAsync (st : RouterState) (subs : List Subscription) (now : Nat)
    (e : Event) : RouterState × Ack :=
  let matched := matchSubscriptions subs e.eventType e.path e.httpMethod
  (matched.foldl (fun s sub => (dispatchAsyncOne s (Job.mk e sub now)).fst) st,
   Ack.success)

/-- Modelled from the spec (§4.2): sync dispatch — match against the cache
(zero matches is `NotFound`), run the pre-dispatch hooks (a rejection is
reported to the caller with the plugin-supplied reason), then call the one
matched target inline.  The second component records which target functions
were actually invoked, so "the target is never invoked" is expressible. -/
def dispatchSync (subs : List Subscription) (hooks : List Hook)
    (call : String → Event → String) (e : Event) :
    Except DispatchError String × List String :=
  match matchSubscriptions subs e.eventType e.path e.httpMethod with
  | [] => (Except.error DispatchError.notFound, [])
  | sub :: _ =>
    match runHooks hooks e with
    | Except.error reason => (Except.error (DispatchError.pluginRejected reason), [])
    | Except.ok e2 => (Except.ok (call sub.target e2), [sub.target])

/-! ## Drain -/

/-- Modelled from the spec (§4.2, §5): the worker loop during drain.  Each
unit of fuel is one unit of the drain deadline's budget; a job is processed
per step while fuel remains, and once the deadline is exhausted the jobs
still queued are abandoned.  Returns (processed, abandoned). -/
def drainLoop : Nat → List Job → Nat × Nat
  | _, [] => (0, 0)
  | 0, q => (0, q.length)
  | Nat.succ fuel, _ :: rest =>
    let pa := drainLoop fuel rest
    (pa.fst + 1, pa.snd)

/-- Modelled from the spec (§4.2): `Drain()` signals the queue closed to new
jobs, lets the workers process the queued jobs up to the bounded drain
deadline, abandons and counts the rest, and returns.  Result: the final
router state and the (processed, abandoned) counts. -/
def drain (st : RouterState) (deadline : Nat) : RouterState × Nat × Nat :=
  ({ st with queue := [], closed := true }, drainLoop deadline st.queue)

/-! ## Concrete sample values, used to instantiate the theorems -/

/-- A sample inbound event. -/
def sampleEvent : Event := ⟨"user.created", "/foo", "POST", "payload"⟩

/-- A sample inbound event whose type matches no registered subscription. -/
def sampleEventOther : Event := ⟨"user.deleted", "/foo", "POST", "payload"⟩

/-- A sample async subscription for `sampleEvent`'s matcher. -/
def sampleSub : Subscription :=
  ⟨"s1", "user.created", "/foo", "POST", DeliveryMode.asyncMode, "fnA"⟩

/-- A sample sync subscription for `sampleEvent`'s matcher. -/
def sampleSyncSub : Subscription :=
  ⟨"s2", "user.created", "/foo", "POST", DeliveryMode.syncMode, "fnA"⟩

/-- A sample dispatch job. -/
def sampleJob : Job := ⟨sampleEvent, sampleSub, 0⟩

/-- A second sample dispatch job. -/
def sampleJob2 : Job := ⟨sampleEvent, sampleSub, 1⟩

/-- A full router state of capacity 2 with 2 jobs queued. -/
def fullRouterState : RouterState := ⟨2, [sampleJob, sampleJob2], 0, false⟩

/-- A sample cache snapshot in which `sampleSub`'s target function exists. -/
def sampleSnapshot : Snapshot := ⟨[("fnA", "http://a")], [sampleSub]⟩

/-- The empty cache snapshot (the function and its subscription both gone). -/
def emptySnapshot : Snapshot := ⟨[], []⟩

/-- A pre-dispatch hook that rejects every event with reason "rate limited". -/
def rejectRateLimited : Hook := fun _ => HookResult.reject "rate limited"

/-- A sample target-invocation function. -/
def sampleCall : String → Event → String := fun _ _ => "resp"

/-- A startup environment in which every fallible startup step succeeds. -/
def cleanEnv : StartupEnv := ⟨false, 0, "", false, false, false⟩

/-! ## Theorems -/

/-- C10: the `logger` function selects the console encoding for `"text"`,
the json encoding (with the production encoder config) for `"json"`, the
dev-dependent default for an empty format, and the empty encoding for any
other non-empty format — in which case `Build` fails and `main`'s trace is
a single panic. -/
theorem logger_encoding_selection (dev : Bool) (level : Int) (format : String) :
    (format = "text" → (logger dev level format).encoding = consoleEncoding)
    ∧ (format = jsonEncoding →
        (logger dev level format).encoding = jsonEncoding
        ∧ (logger dev level format).encoderConfig = EncoderConfigKind.production)
    ∧ (format = "" → (logger dev level format).encoding
        = (if dev then consoleEncoding else jsonEncoding))
    ∧ (format ≠ "" → format ≠ "text" → format ≠ jsonEncoding →
        (logger dev level format).encoding = ""
        ∧ ∀ env : StartupEnv, env.dev = dev → env.level = level →
            env.format = format → mainTrace env = [MainEvent.panicEv]) := by
  refine ⟨?_, ?_, ?_, ?_⟩
  · intro h; subst h; cases dev <;> rfl
  · intro h; subst h; cases dev <;> exact ⟨rfl, rfl⟩
  · intro h; subst h; cases dev <;> rfl
  · intro h1 h2 h3
    have h3' : format ≠ "json" := h3
    have henc : (logger dev level format).encoding = "" := by
      simp [logger, h1, h2, h3', consoleEncoding, jsonEncoding]
    refine ⟨henc, ?_⟩
    intro env hd hl hf
    have hbuild : zapBuildOk (logger env.dev env.level env.format) = false := by
      rw [hd, hl, hf]
      simp [zapBuildOk, henc, consoleEncoding, jsonEncoding]
    simp [mainTrace, hbuild]

/-- C10 witness: instantiated at the unrecognised format `"xml"`. -/
theorem logger_encoding_selection_witness :
    (("xml" : String) ≠ "" ∧ ("xml" : String) ≠ "text" ∧ ("xml" : String) ≠ jsonEncoding)
    ∧ (logger false 0 "xml").encoding = ""
    ∧ mainTrace ⟨false, 0, "xml", false, false, false⟩ = [MainEvent.panicEv] := by
  have h := (logger_encoding_selection false 0 "xml").2.2.2
    (by decide) (by decide) (by decide)
  exact ⟨⟨by decide, by decide, by decide⟩, h.1, h.2 ⟨false, 0, "xml", false, false, false⟩ rfl rfl rfl⟩

/-- C5: when the KV client cannot be created, or the target cache's initial
full load fails, `main` ends in a fatal exit without ever starting the
events API or the configuration API. -/
theorem config_store_unreachable_is_fatal (env : StartupEnv)
    (hbuild : zapBuildOk (logger env.dev env.level env.format) = true)
    (herr : env.kvErr = true ∨ env.cacheErr = true) :
    MainEvent.fatalExit ∈ mainTrace env
    ∧ MainEvent.startEventsAPI ∉ mainTrace env
    ∧ MainEvent.startConfigAPI ∉ mainTrace env := by
  cases hkv : env.kvErr <;> cases hp : env.pluginErr <;> cases hc : env.cacheErr <;>
    simp [hkv, hc] at herr <;> simp [mainTrace, hbuild, hkv, hp, hc]

/-- C5 witness: a failing initial cache load with all earlier steps fine. -/
theorem config_store_unreachable_is_fatal_witness :
    zapBuildOk (logger false 0 "") = true
    ∧ ((false : Bool) = true ∨ (true : Bool) = true)
    ∧ (MainEvent.fatalExit ∈ mainTrace ⟨false, 0, "", false, false, true⟩
        ∧ MainEvent.startEventsAPI ∉ mainTrace ⟨false, 0, "", false, false, true⟩
        ∧ MainEvent.startConfigAPI ∉ mainTrace ⟨false, 0, "", false, false, true⟩) :=
  ⟨by decide, Or.inr rfl,
    config_store_unreachable_is_fatal ⟨false, 0, "", false, false, true⟩
      (by decide) (Or.inr rfl)⟩

/-- C8: when connecting the plugins fails, `main` logs a fatal error and
exits right there: the trace is guard creation, KV creation, fatal exit —
the router workers and both HTTP APIs are never started. -/
theorem plugin_connect_failure_is_fatal (env : StartupEnv)
    (hbuild : zapBuildOk (logger env.dev env.level env.format) = true)
    (hkv : env.kvErr = false) (hp : env.pluginErr = true) :
    mainTrace env
      = [MainEvent.newShutdownGuard, MainEvent.kvCreated, MainEvent.fatalExit]
    ∧ MainEvent.startWorkers ∉ mainTrace env
    ∧ MainEvent.startEventsAPI ∉ mainTrace env
    ∧ MainEvent.startConfigAPI ∉ mainTrace env := by
  have ht : mainTrace env
      = [MainEvent.newShutdownGuard, MainEvent.kvCreated, MainEvent.fatalExit] := by
    simp [mainTrace, hbuild, hkv, hp]
  rw [ht]
  exact ⟨rfl, by decide, by decide, by decide⟩

/-- C8 witness: plugin connection failure with the earlier steps fine. -/
theorem plugin_connect_failure_is_fatal_witness :
    zapBuildOk (logger false 0 "") = true
    ∧ (mainTrace ⟨false, 0, "", false, true, false⟩
        = [MainEvent.newShutdownGuard, MainEvent.kvCreated, MainEvent.fatalExit]
      ∧ MainEvent.startWorkers ∉ mainTrace ⟨false, 0, "", false, true, false⟩
      ∧ MainEvent.startEventsAPI ∉ mainTrace ⟨false, 0, "", false, true, false⟩
      ∧ MainEvent.startConfigAPI ∉ mainTrace ⟨false, 0, "", false, true, false⟩) :=
  ⟨by decide,
    plugin_connect_failure_is_fatal ⟨false, 0, "", false, true, false⟩
      (by decide) rfl rfl⟩

/-- C9: in every successful startup, `router.StartWorkers()` happens strictly
before the events API is started. -/
theorem workers_start_before_events_api (env : StartupEnv)
    (hbuild : zapBuildOk (logger env.dev env.level env.format) = true)
    (hkv : env.kvErr = false) (hp : env.pluginErr = false)
    (hc : env.cacheErr = false) :
    MainEvent.startWorkers ∈ mainTrace env
    ∧ MainEvent.startEventsAPI ∈ mainTrace env
    ∧ (mainTrace env).indexOf MainEvent.startWorkers
        < (mainTrace env).indexOf MainEvent.startEventsAPI := by
  have ht : mainTrace env
      = [MainEvent.newShutdownGuard, MainEvent.kvCreated, MainEvent.pluginsConnected,
         MainEvent.cacheCreated, MainEvent.startWorkers, MainEvent.startEventsAPI,
         MainEvent.startConfigAPI, MainEvent.waitReturned, MainEvent.drainCalled,
         MainEvent.pluginsKilled, MainEvent.exitEv] := by
    simp [mainTrace, hbuild, hkv, hp, hc]
  rw [ht]
  exact ⟨by decide, by decide, by decide⟩

/-- C9 witness: the clean startup environment. -/
theorem workers_start_before_events_api_witness :
    zapBuildOk (logger cleanEnv.dev cleanEnv.level cleanEnv.format) = true
    ∧ (MainEvent.startWorkers ∈ mainTrace cleanEnv
      ∧ MainEvent.startEventsAPI ∈ mainTrace cleanEnv
      ∧ (mainTrace cleanEnv).indexOf MainEvent.startWorkers
          < (mainTrace cleanEnv).indexOf MainEvent.startEventsAPI) :=
  ⟨by decide, workers_start_before_events_api cleanEnv (by decide) rfl rfl rfl⟩

/-- C3 counterexample: in a clean run, `main` reaches process exit without
ever explicitly releasing the store client: main.go calls
`pluginManager.Kill()` but never closes the KV client, so the claimed
"release of the other held resources (plugin connections, store client)
before process exit" does not happen for the store client. -/
theorem store_client_never_released :
    MainEvent.exitEv ∈ mainTrace cleanEnv
    ∧ MainEvent.pluginsKilled ∈ mainTrace cleanEnv
    ∧ MainEvent.storeClientClosed ∉ mainTrace cleanEnv := by
  decide

/-- C3 (amended): in every clean run, `Wait()` returns exactly once, then
`Router.Drain()` is invoked, then the plugin connections are killed, then
the process exits — in that strict order; the store client is never
explicitly released (it is reclaimed only by process exit itself). -/
theorem shutdown_sequence_order (env : StartupEnv)
    (hbuild : zapBuildOk (logger env.dev env.level env.format) = true)
    (hkv : env.kvErr = false) (hp : env.pluginErr = false)
    (hc : env.cacheErr = false) :
    (mainTrace env).count MainEvent.waitReturned = 1
    ∧ (mainTrace env).indexOf MainEvent.waitReturned
        < (mainTrace env).indexOf MainEvent.drainCalled
    ∧ (mainTrace env).indexOf MainEvent.drainCalled
        < (mainTrace env).indexOf MainEvent.pluginsKilled
    ∧ (mainTrace env).indexOf MainEvent.pluginsKilled
        < (mainTrace env).indexOf MainEvent.exitEv
    ∧ MainEvent.exitEv ∈ mainTrace env
    ∧ MainEvent.storeClientClosed ∉ mainTrace env := by
  have ht : mainTrace env
      = [MainEvent.newShutdownGuard, MainEvent.kvCreated, MainEvent.pluginsConnected,
         MainEvent.cacheCreated, MainEvent.startWorkers, MainEvent.startEventsAPI,
         MainEvent.startConfigAPI, MainEvent.waitReturned, MainEvent.drainCalled,
         MainEvent.pluginsKilled, MainEvent.exitEv] := by
    simp [mainTrace, hbuild, hkv, hp, hc]
  rw [ht]
  refine ⟨by decide, by decide, by decide, by decide, by decide, by decide⟩

/-- Helper: `runHooks` over an appended hook list is the sequential
composition — the first list runs first and its error short-circuits. -/
theorem runHooks_append (hs rest : List Hook) (e : Event) :
    runHooks (hs ++ rest) e = Except.bind (runHooks hs e) (runHooks rest) := by
  induction hs generalizing e with
  | nil => rfl
  | cons h t ih =>
    show runHooks (h :: (t ++ rest)) e = _
    cases hh : h e <;> simp [runHooks, hh, ih, Except.bind]

/-- C6: hooks run in registration order (running an appended registration
list is running the first part and then, only if it continued, the second);
a hook that rejects short-circuits every remaining hook of the phase; and a
sync dispatch whose pre-dispatch hooks reject with a reason returns that
reason to the caller and invokes no target function. -/
theorem hooks_in_order_reject_short_circuits
    (hs rest hooks : List Hook) (h : Hook) (subs : List Subscription)
    (call : String → Event → String) (e : Event) (r : String)
    (hrej : runHooks hooks e = Except.error r)
    (hmatch : matchSubscriptions subs e.eventType e.path e.httpMethod ≠ []) :
    runHooks (hs ++ rest) e = Except.bind (runHooks hs e) (runHooks rest)
    ∧ (h e = HookResult.reject r → runHooks (h :: rest) e = Except.error r)
    ∧ dispatchSync subs hooks call e
        = (Except.error (DispatchError.pluginRejected r), []) := by
  refine ⟨runHooks_append hs rest e, ?_, ?_⟩
  · intro hh
    simp [runHooks, hh]
  · cases hm : matchSubscriptions subs e.eventType e.path e.httpMethod with
    | nil => exact absurd hm hmatch
    | cons sub tail => simp [dispatchSync, hm, hrej]

/-- C6 witness: a single rejecting hook with reason "rate limited" and one
matching sync subscription. -/
theorem hooks_in_order_reject_short_circuits_witness :
    runHooks [rejectRateLimited] sampleEvent = Except.error "rate limited"
    ∧ matchSubscriptions [sampleSyncSub] sampleEvent.eventType sampleEvent.path
        sampleEvent.httpMethod ≠ []
    ∧ (runHooks ([] ++ []) sampleEvent
        = Except.bind (runHooks [] sampleEvent) (runHooks [])
      ∧ (rejectRateLimited sampleEvent = HookResult.reject "rate limited" →
          runHooks [rejectRateLimited] sampleEvent = Except.error "rate limited")
      ∧ dispatchSync [sampleSyncSub] [rejectRateLimited] sampleCall sampleEvent
          = (Except.error (DispatchError.pluginRejected "rate limited"), [])) :=
  ⟨rfl, by decide,
    hooks_in_order_reject_short_circuits [] [] [rejectRateLimited]
      rejectRateLimited [sampleSyncSub] sampleCall sampleEvent "rate limited"
      rfl (by decide)⟩

/-- C1: an async dispatch attempted while the bounded job queue is at
capacity leaves the queue unchanged (the job is dropped by the non-blocking
try-enqueue), increments the dropped-event counter by exactly 1, and still
acknowledges success to the publisher. -/
theorem async_drop_on_full_queue (st : RouterState) (j : Job)
    (hfull : st.capacity ≤ st.queue.length) :
    (dispatchAsyncOne st j).fst.queue = st.queue
    ∧ (dispatchAsyncOne st j).fst.dropped = st.dropped + 1
    ∧ (dispatchAsyncOne st j).snd = Ack.success := by
  simp [dispatchAsyncOne, Nat.not_lt.mpr hfull]

/-- C1 witness: a queue of capacity 2 holding 2 jobs. -/
theorem async_drop_on_full_queue_witness :
    fullRouterState.capacity ≤ fullRouterState.queue.length
    ∧ ((dispatchAsyncOne fullRouterState sampleJob).fst.queue = fullRouterState.queue
      ∧ (dispatchAsyncOne fullRouterState sampleJob).fst.dropped
          = fullRouterState.dropped + 1
      ∧ (dispatchAsyncOne fullRouterState sampleJob).snd = Ack.success) :=
  ⟨by decide, async_drop_on_full_queue fullRouterState sampleJob (by decide)⟩

/-- C4: an event matched by zero subscriptions yields `NotFound` (with no
target invoked) on the sync path, and an untouched router state with a
success acknowledgment (a silent no-op) on the async path. -/
theorem zero_matches_notfound_sync_noop_async
    (subs : List Subscription) (hooks : List Hook)
    (call : String → Event → String) (st : RouterState) (now : Nat) (e : Event)
    (hzero : matchSubscriptions subs e.eventType e.path e.httpMethod = []) :
    dispatchSync subs hooks call e = (Except.error DispatchError.notFound, [])
    ∧ dispatchAsync st subs now e = (st, Ack.success) := by
  constructor
  · simp [dispatchSync, hzero]
  · simp [dispatchAsync, hzero]

/-- C4 witness: an event whose type matches no registered subscription. -/
theorem zero_matches_notfound_sync_noop_async_witness :
    matchSubscriptions [sampleSub] sampleEventOther.eventType sampleEventOther.path
        sampleEventOther.httpMethod = []
    ∧ (dispatchSync [sampleSub] [] sampleCall sampleEventOther
        = (Except.error DispatchError.notFound, [])
      ∧ dispatchAsync fullRouterState [sampleSub] 7 sampleEventOther
          = (fullRouterState, Ack.success)) :=
  ⟨by decide,
    zero_matches_notfound_sync_noop_async [sampleSub] [] sampleCall
      fullRouterState 7 sampleEventOther (by decide)⟩

/-- Helper: the drain worker loop accounts for every queued job — processed
plus abandoned equals the queue length — and with enough deadline budget it
processes everything and abandons nothing. -/
theorem drainLoop_spec (q : List Job) : ∀ fuel : Nat,
    (drainLoop fuel q).fst + (drainLoop fuel q).snd = q.length
    ∧ (q.length ≤ fuel → drainLoop fuel q = (q.length, 0)) := by
  induction q with
  | nil => intro fuel; cases fuel <;> simp [drainLoop]
  | cons j rest ih =>
    intro fuel
    cases fuel with
    | zero =>
      refine ⟨by simp [drainLoop], ?_⟩
      intro hle
      simp at hle
    | succ f =>
      refine ⟨?_, ?_⟩
      · have := (ih f).1
        simp [drainLoop]
        omega
      · intro hle
        have hle' : rest.length ≤ f := by
          simpa [Nat.succ_le_succ_iff] using hle
        simp [drainLoop, (ih f).2 hle']

/-- C2: for every router state with N jobs queued, `drain` returns (it is a
total, structurally-recursive function — it cannot hang), closes the queue
to new jobs, empties it, and accounts for all N jobs: processed plus
abandoned-and-counted equals N, and when N is within the drain deadline's
budget all N are processed and none is abandoned. -/
theorem drain_closes_and_accounts_for_all_jobs (st : RouterState) (deadline : Nat) :
    (drain st deadline).fst.closed = true
    ∧ (drain st deadline).fst.queue = []
    ∧ (drain st deadline).snd.fst + (drain st deadline).snd.snd = st.queue.length
    ∧ (st.queue.length ≤ deadline →
        (drain st deadline).snd = (st.queue.length, 0)) :=
  ⟨rfl, rfl, (drainLoop_spec st.queue deadline).1, (drainLoop_spec st.queue deadline).2⟩

/-- C2 witness: two queued jobs drained under a deadline budget of 5. -/
theorem drain_closes_and_accounts_for_all_jobs_witness :
    ((drain fullRouterState 5).fst.closed = true
      ∧ (drain fullRouterState 5).fst.queue = []
      ∧ (drain fullRouterState 5).snd.fst + (drain fullRouterState 5).snd.snd
          = fullRouterState.queue.length)
    ∧ fullRouterState.queue.length ≤ 5
    ∧ (drain fullRouterState 5).snd = (fullRouterState.queue.length, 0) :=
  ⟨⟨(drain_closes_and_accounts_for_all_jobs fullRouterState 5).1,
    (drain_closes_and_accounts_for_all_jobs fullRouterState 5).2.1,
    (drain_closes_and_accounts_for_all_jobs fullRouterState 5).2.2.1⟩,
   by decide,
   (drain_closes_and_accounts_for_all_jobs fullRouterState 5).2.2.2 (by decide)⟩

/-- Helper: every snapshot a reader observes in an interleaving is the
initial version or one of the complete versions the watch task swapped in. -/
theorem runReads_mem (ops : List CacheOp) : ∀ init r : Snapshot,
    r ∈ runReads init ops → r ∈ init :: swappedVersions ops := by
  induction ops with
  | nil =>
    intro init r hr
    simp [runReads] at hr
  | cons op rest ih =>
    intro init r hr
    cases op with
    | swapOp s =>
      have hmem := ih s r (by simpa [runReads] using hr)
      simp [swappedVersions, List.mem_cons] at hmem ⊢
      tauto
    | readOp =>
      rw [show runReads init (CacheOp.readOp :: rest) = init :: runReads init rest
            from rfl] at hr
      rcases List.mem_cons.mp hr with h | h
      · simp [h]
      · have hmem := ih init r h
        simpa [swappedVersions] using hmem

/-- C7: snapshot replacement is atomic with respect to concurrent readers —
in every interleaving of atomic swap and read steps, each observed snapshot
is exactly one complete version (the initial one or a swapped-in one), so
any property holding of every complete version (e.g. "no subscription
dangles after its function was deleted") holds of every snapshot any reader
observes; mixed old/new states are never observed. -/
theorem snapshot_swap_atomic (init : Snapshot) (ops : List CacheOp) (r : Snapshot)
    (P : Snapshot → Prop)
    (hall : ∀ v ∈ init :: swappedVersions ops, P v)
    (hr : r ∈ runReads init ops) :
    r ∈ init :: swappedVersions ops ∧ P r :=
  have h := runReads_mem ops init r hr
  ⟨h, hall r h⟩

/-- C7 witness: a swap that deletes a function together with its
subscription, then a read; the reader sees the new complete version, and
the no-dangling property of both versions holds of what it saw. -/
theorem snapshot_swap_atomic_witness :
    (∀ v ∈ sampleSnapshot
        :: swappedVersions [CacheOp.swapOp emptySnapshot, CacheOp.readOp],
      noDangling v = true)
    ∧ emptySnapshot
        ∈ runReads sampleSnapshot [CacheOp.swapOp emptySnapshot, CacheOp.readOp]
    ∧ (emptySnapshot
        ∈ sampleSnapshot
          :: swappedVersions [CacheOp.swapOp emptySnapshot, CacheOp.readOp]
      ∧ noDangling emptySnapshot = true) :=
  ⟨by decide, by decide,
    snapshot_swap_atomic sampleSnapshot
      [CacheOp.swapOp emptySnapshot, CacheOp.readOp] emptySnapshot
      (fun s => noDangling s = true) (by decide) (by decide)⟩

/-- C3 witness: the clean startup environment. -/
theorem shutdown_sequence_order_witness :
    zapBuildOk (logger cleanEnv.dev cleanEnv.level cleanEnv.format) = true
    ∧ ((mainTrace cleanEnv).count MainEvent.waitReturned = 1
      ∧ (mainTrace cleanEnv).indexOf MainEvent.waitReturned
          < (mainTrace cleanEnv).indexOf MainEvent.drainCalled
      ∧ (mainTrace cleanEnv).indexOf MainEvent.drainCalled
          < (mainTrace cleanEnv).indexOf MainEvent.pluginsKilled
      ∧ (mainTrace cleanEnv).indexOf MainEvent.pluginsKilled
          < (mainTrace cleanEnv).indexOf MainEvent.exitEv
      ∧ MainEvent.exitEv ∈ mainTrace cleanEnv
      ∧ MainEvent.storeClientClosed ∉ mainTrace cleanEnv) :=
  ⟨by decide, shutdown_sequence_order cleanEnv (by decide) rfl rfl rfl⟩

end EventGateway
